import Mathlib

/-!
# Shallow embedding of `fegoa89/zipcodes` (src/zipcodes.go)

The Go package loads a tab-delimited GeoNames postal-code file into a
`map[string]ZipCodeLocation` and answers lookup, haversine-distance and
radius-search queries.  This file embeds the package in Lean:

* Go strings stay `String`; `float64` values are idealised as exact numbers
  (`ℚ` for parsed coordinates so loading stays computable, cast to `ℝ` inside
  the transcendental distance math).
* The Go map is embedded as an association list with overwrite-on-insert
  (`mapInsert`) and zero-value-defaulting access (`lookupRaw`), mirroring
  Go map semantics used by the source.
* `bufio.Scanner` line splitting is abstracted away: `LoadDataset` receives
  the file content as `Option (List String)` — `none` models `os.Open`
  failing (file missing/unreadable), `some lines` the scanned lines.
* Go library functions called by the source are modelled from their
  documented semantics: `strings.Split(_, "\t")` as `splitTab`,
  `strconv.ParseFloat` as `parseFloat` (decimal/exponent forms; the `Inf`,
  `NaN` and hex-float forms have no counterpart in ℚ and are irrelevant to
  the properties proved here), `math.Round` as `goRound` (nearest integer,
  ties away from zero), `math.Atan2` as `atan2`, and `log.Fatal` — which
  prints and then calls `os.Exit(1)`, never returning — as the dedicated
  `LoadResult.fatalExit` outcome.
-/

/-- `ZipCodeLocation` struct of the source: one dataset row. -/
structure ZipCodeLocation where
  zipCode   : String
  placeName : String
  adminName : String
  lat       : ℚ
  lon       : ℚ
  stateCode : String
deriving DecidableEq, Repr

deriving instance DecidableEq for Except

/-- The Go zero value `ZipCodeLocation{}` that `Lookup` compares against. -/
def zeroLocation : ZipCodeLocation := ⟨"", "", "", 0, 0, ""⟩

/-- The `map[string]ZipCodeLocation` of the source, as an association list. -/
abbrev DatasetList := List (String × ZipCodeLocation)

/-- Go map read `m[k]` without the default: `none` when the key is absent. -/
def mapGet : DatasetList → String → Option ZipCodeLocation
  | [], _ => none
  | (key, loc) :: rest, k => if key = k then some loc else mapGet rest k

/-- Go map write `m[k] = v`: any previous binding of `k` is replaced. -/
def mapInsert (m : DatasetList) (k : String) (v : ZipCodeLocation) : DatasetList :=
  m.filter (fun p => p.1 ≠ k) ++ [(k, v)]

/-- `Zipcodes` struct of the source: the loaded dataset. -/
structure Zipcodes where
  datasetList : DatasetList
deriving DecidableEq, Repr

/-- Go map read `m[k]` including the zero-value default for absent keys. -/
def Zipcodes.lookupRaw (zc : Zipcodes) (k : String) : ZipCodeLocation :=
  (mapGet zc.datasetList k).getD zeroLocation

/-- `Lookup` of the source: Go map access yields the zero value for a missing
key, and the source tests the fetched record against `ZipCodeLocation{}`. -/
def Zipcodes.Lookup (zc : Zipcodes) (zipCode : String) : Except String ZipCodeLocation :=
  let foundedZipcode := zc.lookupRaw zipCode
  if foundedZipcode = zeroLocation then
    .error ("zipcodes: zipcode " ++ zipCode ++ " not found !")
  else
    .ok foundedZipcode

/-- `strings.Split(s, "\t")` on the character list: the slices between tabs,
empty slices preserved, `[] ↦ [[]]` (Go: `Split("") = [""]`). -/
def splitTabsAux : List Char → List (List Char)
  | [] => [[]]
  | c :: rest =>
    if c = '\t' then
      [] :: splitTabsAux rest
    else
      match splitTabsAux rest with
      | [] => [[c]]
      | p :: ps => (c :: p) :: ps

/-- `strings.Split(line, "\t")` of the source, as `String`s. -/
def splitTab (s : String) : List String :=
  (splitTabsAux s.data).map List.asString

/-- Value of a digit list read in base 10. -/
def digitsToNat (cs : List Char) : ℕ :=
  cs.foldl (fun n c => 10 * n + (c.toNat - 48)) 0

/-- Mantissa of a Go decimal float literal: `digits`, `digits.digits`,
`digits.` or `.digits` (at least one digit in total). -/
def parseMantissa (cs : List Char) : Option ℚ :=
  let intPart := cs.takeWhile Char.isDigit
  match cs.dropWhile Char.isDigit with
  | [] =>
    if intPart.isEmpty then none else some (digitsToNat intPart : ℚ)
  | '.' :: frac =>
    if frac.all Char.isDigit ∧ ¬(intPart.isEmpty ∧ frac.isEmpty) then
      some ((digitsToNat intPart : ℚ) + (digitsToNat frac : ℚ) / (10 : ℚ) ^ frac.length)
    else none
  | _ => none

/-- Exponent of a Go decimal float literal: optional sign, nonempty digits. -/
def parseExponent (cs : List Char) : Option ℤ :=
  match cs with
  | '+' :: ds => if ds.all Char.isDigit ∧ ¬ds.isEmpty then some (digitsToNat ds : ℤ) else none
  | '-' :: ds => if ds.all Char.isDigit ∧ ¬ds.isEmpty then some (-(digitsToNat ds : ℤ)) else none
  | ds => if ds.all Char.isDigit ∧ ¬ds.isEmpty then some (digitsToNat ds : ℤ) else none

/-- Unsigned part of a Go decimal float literal: mantissa, then an optional
`e`/`E` exponent. -/
def parseUnsigned (cs : List Char) : Option ℚ :=
  match cs.span (fun c => ¬(c = 'e' ∨ c = 'E')) with
  | (mant, []) => parseMantissa mant
  | (mant, _ :: expPart) =>
    match parseMantissa mant, parseExponent expPart with
    | some m, some e => some (m * (10 : ℚ) ^ e)
    | _, _ => none

/-- `strconv.ParseFloat(s, 64)` of the source, modelled over ℚ on the decimal
grammar `[+|-] mantissa [(e|E) [+|-] digits]`; `none` is Go's parse error. -/
def parseFloat (s : String) : Option ℚ :=
  match s.data with
  | [] => none
  | '+' :: rest => parseUnsigned rest
  | '-' :: rest => (parseUnsigned rest).map (fun q => -q)
  | cs => parseUnsigned cs

/-- Validation errors of `LoadDataset`, one constructor per `fmt.Errorf` call
site of the source (spec names: `MalformedLineError`,
`InvalidLatitudeError`, `InvalidLongitudeError`). -/
inductive LoadError where
  /-- `"zipcodes: file line does not have 12 fields"` -/
  | malformedLine : LoadError
  /-- `"zipcodes: error while converting %s to Latitude"` -/
  | invalidLatitude (raw : String) : LoadError
  /-- `"zipcodes: error while converting %s to Longitude"` -/
  | invalidLongitude (raw : String) : LoadError
deriving DecidableEq, Repr

/-- The per-line body of the scanner loop of `LoadDataset`: split on tab,
check for 12 fields, parse latitude (field 9) then longitude (field 10), and
build the record keyed by the zip-code field (field 1). -/
def parseLine (line : String) : Except LoadError (String × ZipCodeLocation) :=
  let splittedLine := splitTab line
  if splittedLine.length ≠ 12 then
    .error .malformedLine
  else
    match parseFloat (splittedLine.getD 9 "") with
    | none => .error (.invalidLatitude (splittedLine.getD 9 ""))
    | some lat =>
      match parseFloat (splittedLine.getD 10 "") with
      | none => .error (.invalidLongitude (splittedLine.getD 10 ""))
      | some lon =>
        .ok (splittedLine.getD 1 "",
             { zipCode   := splittedLine.getD 1 ""
               placeName := splittedLine.getD 2 ""
               adminName := splittedLine.getD 3 ""
               lat       := lat
               lon       := lon
               stateCode := splittedLine.getD 4 "" })

/-- `true` iff the scanner loop accepts the line. -/
def lineOk (line : String) : Bool :=
  match parseLine line with
  | .ok _ => true
  | .error _ => false

/-- The scanner loop of `LoadDataset`: process lines in order, inserting each
record into the accumulated map; the first bad line aborts with its error. -/
def loadLines : List String → DatasetList → Except LoadError DatasetList
  | [], zipcodeMap => .ok zipcodeMap
  | line :: rest, zipcodeMap =>
    match parseLine line with
    | .error e => .error e
    | .ok (key, loc) => loadLines rest (mapInsert zipcodeMap key loc)

/-- Outcome of `LoadDataset`.  `fatalExit` is the file-open failure path:
the source calls `log.Fatal(err)` there, which terminates the process, so
the `return Zipcodes{}, fmt.Errorf(...)` that follows it is dead code and no
error value ever reaches the caller. -/
inductive LoadResult where
  | ok (zc : Zipcodes)
  | err (e : LoadError)
  | fatalExit
deriving DecidableEq, Repr

/-- `true` iff the load outcome is a returned `Zipcodes` value. -/
def LoadResult.isOk : LoadResult → Bool
  | .ok _ => true
  | _ => false

/-- `true` iff the load outcome is an error value returned to the caller. -/
def LoadResult.isErr : LoadResult → Bool
  | .err _ => true
  | _ => false

/-- `true` iff the load outcome is process termination via `log.Fatal`. -/
def LoadResult.isFatalExit : LoadResult → Bool
  | .fatalExit => true
  | _ => false

/-- `true` iff the error is the 12-field malformed-line error. -/
def LoadError.isMalformedLine : LoadError → Bool
  | .malformedLine => true
  | _ => false

/-- `LoadDataset` of the source.  `none` models `os.Open` failing (missing or
unreadable file); `some lines` models the lines produced by `bufio.Scanner`
on a readable file. -/
def LoadDataset : Option (List String) → LoadResult
  | none => .fatalExit
  | some lines =>
    match loadLines lines [] with
    | .ok zipcodeMap => .ok ⟨zipcodeMap⟩
    | .error e => .err e

/-- Spec-side description (§3, §9): the record held by key `k` after loading
is the one built from the last line whose zip-code field equals `k`. -/
def lastParsed (lines : List String) (k : String) : Option ZipCodeLocation :=
  match lines with
  | [] => none
  | line :: rest =>
    match lastParsed rest k with
    | some loc => some loc
    | none =>
      match parseLine line with
      | .ok (key, loc) => if key = k then some loc else none
      | .error _ => none

noncomputable section
open scoped Classical

/-- `earthRadiusKm` constant of the source. -/
def earthRadiusKm : ℝ := 6371

/-- `earthRadiusMi` constant of the source. -/
def earthRadiusMi : ℝ := 3958

/-- `hsin` of the source: `math.Pow(math.Sin(t/2), 2)`. -/
def hsin (t : ℝ) : ℝ := Real.sin (t / 2) ^ 2

/-- `degreesToRadians` of the source. -/
def degreesToRadians (d : ℝ) : ℝ := d * Real.pi / 180

/-- `math.Atan2(y, x)` on real inputs (the NaN/Inf special cases of the Go
documentation have no counterpart in ℝ). -/
def atan2 (y x : ℝ) : ℝ :=
  if 0 < x then Real.arctan (y / x)
  else if x < 0 then
    (if 0 ≤ y then Real.arctan (y / x) + Real.pi else Real.arctan (y / x) - Real.pi)
  else if 0 < y then Real.pi / 2
  else if y < 0 then -(Real.pi / 2)
  else 0

/-- `math.Round(x)`: the nearest integer, rounding half away from zero. -/
def goRound (x : ℝ) : ℝ :=
  if x < 0 then -((⌊-x + 1/2⌋ : ℤ) : ℝ) else ((⌊x + 1/2⌋ : ℤ) : ℝ)

/-- Modelled from the spec (§4.2 step 5 names round-half-to-even as the
source's rounding mode): round to the nearest integer, ties to the even
integer.  Compared against `goRound`, the rounding the source performs. -/
def roundHalfToEven (x : ℝ) : ℝ :=
  if x - ⌊x⌋ < 1/2 then ((⌊x⌋ : ℤ) : ℝ)
  else if 1/2 < x - ⌊x⌋ then ((⌊x⌋ : ℤ) : ℝ) + 1
  else if Even ⌊x⌋ then ((⌊x⌋ : ℤ) : ℝ) else ((⌊x⌋ : ℤ) : ℝ) + 1

/-- Body of `DistanceBetweenPoints` up to (and excluding) the final
`math.Round(distance*100)/100`, which the source applies inline. -/
def rawHaversine (latitude1 longitude1 latitude2 longitude2 radius : ℝ) : ℝ :=
  let lat1 := degreesToRadians latitude1
  let lon1 := degreesToRadians longitude1
  let lat2 := degreesToRadians latitude2
  let lon2 := degreesToRadians longitude2
  let diffLat := lat2 - lat1
  let diffLon := lon2 - lon1
  let a := hsin diffLat + Real.cos lat1 * Real.cos lat2 * hsin diffLon
  let c := 2 * atan2 (Real.sqrt a) (Real.sqrt (1 - a))
  c * radius

/-- `DistanceBetweenPoints` of the source: haversine distance, rounded to two
decimal places via `math.Round(distance*100)/100`. -/
def DistanceBetweenPoints (latitude1 longitude1 latitude2 longitude2 radius : ℝ) : ℝ :=
  goRound (rawHaversine latitude1 longitude1 latitude2 longitude2 radius * 100) / 100

/-- `CalculateDistance` of the source: look up both zipcodes (A first), then
compute the rounded haversine distance on their stored coordinates. -/
def Zipcodes.CalculateDistance (zc : Zipcodes) (zipCodeA zipCodeB : String)
    (radius : ℝ) : Except String ℝ :=
  match zc.Lookup zipCodeA with
  | .error errLocA => .error errLocA
  | .ok locationA =>
    match zc.Lookup zipCodeB with
    | .error errLocB => .error errLocB
    | .ok locationB =>
      .ok (DistanceBetweenPoints locationA.lat locationA.lon
             locationB.lat locationB.lon radius)

/-- `DistanceInKm` of the source. -/
def Zipcodes.DistanceInKm (zc : Zipcodes) (zipCodeA zipCodeB : String) : Except String ℝ :=
  zc.CalculateDistance zipCodeA zipCodeB earthRadiusKm

/-- `DistanceInMiles` of the source. -/
def Zipcodes.DistanceInMiles (zc : Zipcodes) (zipCodeA zipCodeB : String) : Except String ℝ :=
  zc.CalculateDistance zipCodeA zipCodeB earthRadiusMi

/-- `DistanceInKmToZipCode` of the source. -/
def Zipcodes.DistanceInKmToZipCode (zc : Zipcodes) (zipCode : String)
    (latitude longitude : ℝ) : Except String ℝ :=
  match zc.Lookup zipCode with
  | .error errLoc => .error errLoc
  | .ok location =>
    .ok (DistanceBetweenPoints location.lat location.lon latitude longitude earthRadiusKm)

/-- `DistanceInMilToZipCode` of the source. -/
def Zipcodes.DistanceInMilToZipCode (zc : Zipcodes) (zipCode : String)
    (latitude longitude : ℝ) : Except String ℝ :=
  match zc.Lookup zipCode with
  | .error errLoc => .error errLoc
  | .ok location =>
    .ok (DistanceBetweenPoints location.lat location.lon latitude longitude earthRadiusMi)

/-- The loop of `FindZipcodesWithinRadius`: emit `elm.ZipCode` for every
entry whose zip-code string differs from the reference's and whose rounded
distance to the reference is strictly below `maxRadius`. -/
def findWithin (location : ZipCodeLocation) (maxRadius earthRadius : ℝ) :
    List (String × ZipCodeLocation) → List String
  | [] => []
  | (_, elm) :: rest =>
    if elm.zipCode ≠ location.zipCode then
      (if DistanceBetweenPoints location.lat location.lon elm.lat elm.lon earthRadius
          < maxRadius then
        elm.zipCode :: findWithin location maxRadius earthRadius rest
      else findWithin location maxRadius earthRadius rest)
    else findWithin location maxRadius earthRadius rest

/-- `FindZipcodesWithinRadius` of the source. -/
def Zipcodes.FindZipcodesWithinRadius (zc : Zipcodes) (location : ZipCodeLocation)
    (maxRadius earthRadius : ℝ) : List String :=
  findWithin location maxRadius earthRadius zc.datasetList

/-- `GetZipcodesWithinKmRadius` of the source. -/
def Zipcodes.GetZipcodesWithinKmRadius (zc : Zipcodes) (zipCode : String)
    (radius : ℝ) : Except String (List String) :=
  match zc.Lookup zipCode with
  | .error errLoc => .error errLoc
  | .ok location => .ok (zc.FindZipcodesWithinRadius location radius earthRadiusKm)

/-- `GetZipcodesWithinMlRadius` of the source. -/
def Zipcodes.GetZipcodesWithinMlRadius (zc : Zipcodes) (zipCode : String)
    (radius : ℝ) : Except String (List String) :=
  match zc.Lookup zipCode with
  | .error errLoc => .error errLoc
  | .ok location => .ok (zc.FindZipcodesWithinRadius location radius earthRadiusMi)

end

/-! ## Helper lemmas about the embedded operations -/

lemma mapGet_insert_self (m : DatasetList) (k : String) (v : ZipCodeLocation) :
    mapGet (mapInsert m k v) k = some v := by
  induction m with
  | nil => simp [mapGet, mapInsert]
  | cons a m ih =>
    obtain ⟨ak, av⟩ := a
    by_cases hak : ak = k <;>
      simp only [mapInsert, List.filter_cons, ne_eq, decide_not] at ih ⊢ <;>
      simp [mapGet, hak, ih]

lemma mapGet_insert_ne (m : DatasetList) (k k' : String) (v : ZipCodeLocation)
    (hk : k ≠ k') : mapGet (mapInsert m k v) k' = mapGet m k' := by
  induction m with
  | nil => simp [mapGet, mapInsert, hk]
  | cons a m ih =>
    obtain ⟨ak, av⟩ := a
    by_cases hak : ak = k
    · have hak' : ak ≠ k' := fun h => hk (hak ▸ h)
      simp only [mapInsert, List.filter_cons, ne_eq, decide_not] at ih ⊢
      simp [mapGet, hak, hak', ih, hk]
    · by_cases hak' : ak = k'
      · have hk2 : ¬(k' = k) := fun h => hk h.symm
        simp only [mapInsert, List.filter_cons, ne_eq, decide_not] at ih ⊢
        simp [mapGet, hak, hak', hk2, ih]
      · simp only [mapInsert, List.filter_cons, ne_eq, decide_not] at ih ⊢
        simp [mapGet, hak, hak', ih]

lemma mapGet_insert (m : DatasetList) (k k' : String) (v : ZipCodeLocation) :
    mapGet (mapInsert m k v) k' = if k = k' then some v else mapGet m k' := by
  by_cases hk : k = k'
  · subst hk; simp [mapGet_insert_self]
  · simp [mapGet_insert_ne m k k' v hk, hk]

lemma mapGet_getD_ne_zero (m : DatasetList) (k : String)
    (h : (mapGet m k).getD zeroLocation ≠ zeroLocation) :
    mapGet m k = some ((mapGet m k).getD zeroLocation) := by
  cases hg : mapGet m k with
  | none => rw [hg] at h; simp at h
  | some loc => simp

lemma Lookup_ok_get (zc : Zipcodes) (k : String) (loc : ZipCodeLocation)
    (h : zc.Lookup k = .ok loc) :
    mapGet zc.datasetList k = some loc ∧ loc ≠ zeroLocation := by
  simp only [Zipcodes.Lookup] at h
  split at h
  · cases h
  · next hne =>
    injection h with h
    subst h
    unfold Zipcodes.lookupRaw at hne ⊢
    exact ⟨mapGet_getD_ne_zero _ _ hne, hne⟩

lemma Lookup_error_iff (zc : Zipcodes) (k : String) :
    (∃ e, zc.Lookup k = .error e) ↔
      (mapGet zc.datasetList k = none ∨ mapGet zc.datasetList k = some zeroLocation) := by
  simp only [Zipcodes.Lookup, Zipcodes.lookupRaw]
  cases hg : mapGet zc.datasetList k with
  | none => simp [hg]
  | some loc => by_cases hz : loc = zeroLocation <;> simp [hg, hz]

lemma Lookup_get_ok (zc : Zipcodes) (k : String) (loc : ZipCodeLocation)
    (hg : mapGet zc.datasetList k = some loc) (hz : loc ≠ zeroLocation) :
    zc.Lookup k = .ok loc := by
  simp [Zipcodes.Lookup, Zipcodes.lookupRaw, hg, hz]

lemma parseLine_badSplit (line : String) (h : (splitTab line).length ≠ 12) :
    parseLine line = .error .malformedLine := by
  simp [parseLine, h]

lemma parseLine_badLat (line : String) (h12 : (splitTab line).length = 12)
    (hlat : parseFloat ((splitTab line).getD 9 "") = none) :
    parseLine line = .error (.invalidLatitude ((splitTab line).getD 9 "")) := by
  simp only [parseLine]
  rw [if_neg (by simp [h12]), hlat]

lemma parseLine_badLon (line : String) (lat : ℚ) (h12 : (splitTab line).length = 12)
    (hlat : parseFloat ((splitTab line).getD 9 "") = some lat)
    (hlon : parseFloat ((splitTab line).getD 10 "") = none) :
    parseLine line = .error (.invalidLongitude ((splitTab line).getD 10 "")) := by
  simp only [parseLine]
  rw [if_neg (by simp [h12]), hlat, hlon]

lemma parseLine_ok_fields (line : String) (k : String) (loc : ZipCodeLocation)
    (h : parseLine line = .ok (k, loc)) :
    (splitTab line).length = 12 ∧
    k = (splitTab line).getD 1 "" ∧
    loc.zipCode = (splitTab line).getD 1 "" ∧
    loc.placeName = (splitTab line).getD 2 "" ∧
    loc.adminName = (splitTab line).getD 3 "" ∧
    loc.stateCode = (splitTab line).getD 4 "" ∧
    parseFloat ((splitTab line).getD 9 "") = some loc.lat ∧
    parseFloat ((splitTab line).getD 10 "") = some loc.lon := by
  simp only [parseLine] at h
  split at h
  · cases h
  · next h12 =>
    push_neg at h12
    cases hlat : parseFloat ((splitTab line).getD 9 "") with
    | none => rw [hlat] at h; cases h
    | some lat =>
      rw [hlat] at h
      cases hlon : parseFloat ((splitTab line).getD 10 "") with
      | none => rw [hlon] at h; cases h
      | some lon =>
        rw [hlon] at h
        simp only [Except.ok.injEq, Prod.mk.injEq] at h
        obtain ⟨hk, hloc⟩ := h
        subst hk
        subst hloc
        exact ⟨h12, rfl, rfl, rfl, rfl, rfl, rfl, rfl⟩

lemma parseLine_ok_key (line : String) (k : String) (loc : ZipCodeLocation)
    (h : parseLine line = .ok (k, loc)) : loc.zipCode = k := by
  obtain ⟨-, h1, h2, -⟩ := parseLine_ok_fields line k loc h
  rw [h2, h1]

lemma loadLines_err (lines : List String) :
    ∀ acc, (∃ l ∈ lines, lineOk l = false) →
      ∃ e, loadLines lines acc = .error e := by
  induction lines with
  | nil => rintro acc ⟨l, hl, -⟩; cases hl
  | cons line rest ih =>
    rintro acc ⟨l, hl, hbad⟩
    cases hp : parseLine line with
    | error e => exact ⟨e, by simp [loadLines, hp]⟩
    | ok kv =>
      have hlr : l ∈ rest := by
        rcases List.mem_cons.mp hl with h | h
        · subst h; simp [lineOk, hp] at hbad
        · exact h
      obtain ⟨e, he⟩ := ih (mapInsert acc kv.1 kv.2) ⟨l, hlr, hbad⟩
      exact ⟨e, by simpa [loadLines, hp] using he⟩

lemma loadLines_ok (lines : List String) :
    ∀ acc, (∀ l ∈ lines, lineOk l = true) →
      ∃ m, loadLines lines acc = .ok m := by
  induction lines with
  | nil => exact fun acc _ => ⟨acc, rfl⟩
  | cons line rest ih =>
    intro acc hok
    have hline := hok line (by simp)
    cases hp : parseLine line with
    | error e => simp [lineOk, hp] at hline
    | ok kv =>
      obtain ⟨m, hm⟩ := ih (mapInsert acc kv.1 kv.2) (fun l hl => hok l (by simp [hl]))
      exact ⟨m, by simpa [loadLines, hp] using hm⟩

lemma loadLines_abort (pre : List String) :
    ∀ acc (line : String) (post : List String) (e : LoadError),
      (∀ p ∈ pre, lineOk p = true) → parseLine line = .error e →
      loadLines (pre ++ line :: post) acc = .error e := by
  induction pre with
  | nil => intro acc line post e _ hp; simp [loadLines, hp]
  | cons q pre ih =>
    intro acc line post e hok hp
    have hq := hok q (by simp)
    cases hpq : parseLine q with
    | error e2 => simp [lineOk, hpq] at hq
    | ok kv =>
      have := ih (mapInsert acc kv.1 kv.2) line post e
        (fun p hmem => hok p (by simp [hmem])) hp
      simpa [loadLines, hpq] using this

lemma loadLines_get (lines : List String) :
    ∀ acc m k, loadLines lines acc = .ok m →
      mapGet m k =
        (match lastParsed lines k with
         | some loc => some loc
         | none => mapGet acc k) := by
  induction lines with
  | nil =>
    intro acc m k h
    injection h with h
    subst h
    simp [lastParsed]
  | cons line rest ih =>
    intro acc m k h
    cases hp : parseLine line with
    | error e => simp [loadLines, hp] at h
    | ok kv =>
      obtain ⟨key, loc⟩ := kv
      rw [show loadLines (line :: rest) acc = loadLines rest (mapInsert acc key loc) by
        simp [loadLines, hp]] at h
      rw [ih (mapInsert acc key loc) m k h]
      cases hl : lastParsed rest k with
      | some l => simp [lastParsed, hl]
      | none =>
        simp only [lastParsed, hl, hp]
        by_cases hk : key = k
        · subst hk; simp [mapGet_insert_self]
        · simp [hk, mapGet_insert_ne acc key k loc hk]

lemma lastParsed_mem (lines : List String) (k : String) (loc : ZipCodeLocation) :
    lastParsed lines k = some loc → ∃ line ∈ lines, parseLine line = .ok (k, loc) := by
  induction lines with
  | nil => intro h; cases h
  | cons line rest ih =>
    intro h
    simp only [lastParsed] at h
    cases hl : lastParsed rest k with
    | some l =>
      rw [hl] at h
      simp at h
      subst h
      obtain ⟨w, hw, hpw⟩ := ih hl
      exact ⟨w, by simp [hw], hpw⟩
    | none =>
      rw [hl] at h
      cases hp : parseLine line with
      | error e => rw [hp] at h; simp at h
      | ok kv =>
        obtain ⟨key, l⟩ := kv
        rw [hp] at h
        by_cases hk : key = k
        · subst hk
          simp at h
          subst h
          exact ⟨line, by simp, hp⟩
        · simp [hk] at h

lemma floor_half : ⌊(1/2 : ℝ)⌋ = 0 := by
  rw [Int.floor_eq_zero_iff]
  constructor <;> norm_num

lemma goRound_zero : goRound 0 = 0 := by
  unfold goRound
  rw [if_neg (lt_irrefl 0), zero_add, floor_half]
  simp

lemma goRound_half : goRound (1/2 : ℝ) = 1 := by
  unfold goRound
  rw [if_neg (by norm_num)]
  norm_num

lemma roundHalfToEven_half : roundHalfToEven (1/2 : ℝ) = 0 := by
  unfold roundHalfToEven
  rw [floor_half]
  norm_num

lemma goRound_tie (x : ℝ) (h : x - ⌊x⌋ = 1/2) : |goRound x| = |x| + 1/2 := by
  have hx : x = (⌊x⌋ : ℝ) + 1/2 := by linarith
  unfold goRound
  split
  · next hneg =>
    have h1 : -x + 1/2 = ((-⌊x⌋ : ℤ) : ℝ) := by push_cast; linarith
    rw [h1, Int.floor_intCast]
    have hfl : ((⌊x⌋ : ℤ) : ℝ) ≤ x := Int.floor_le x
    have hfneg : ((-(-⌊x⌋) : ℤ) : ℝ) < 0 := by push_cast; push_cast at hfl; linarith
    rw [abs_of_neg (by push_cast at hfneg ⊢; linarith), abs_of_neg hneg]
    push_cast
    linarith
  · next hpos =>
    push_neg at hpos
    have h1 : x + 1/2 = ((⌊x⌋ + 1 : ℤ) : ℝ) := by push_cast; linarith
    rw [h1, Int.floor_intCast]
    have hfl : (0 : ℝ) ≤ (⌊x⌋ : ℝ) + 1 := by
      have := Int.floor_le x
      linarith
    rw [abs_of_nonneg (by push_cast; linarith), abs_of_nonneg hpos]
    push_cast
    linarith

lemma hsin_sub_comm (a b : ℝ) : hsin (a - b) = hsin (b - a) := by
  unfold hsin
  have h : (a - b) / 2 = -((b - a) / 2) := by ring
  rw [h, Real.sin_neg, neg_sq]

lemma hsin_zero : hsin 0 = 0 := by
  unfold hsin
  simp

lemma atan2_zero_one : atan2 0 1 = 0 := by
  unfold atan2
  rw [if_pos one_pos]
  simp

lemma rawHaversine_symm (lat1 lon1 lat2 lon2 r : ℝ) :
    rawHaversine lat1 lon1 lat2 lon2 r = rawHaversine lat2 lon2 lat1 lon1 r := by
  simp only [rawHaversine]
  rw [hsin_sub_comm (degreesToRadians lat2) (degreesToRadians lat1),
    hsin_sub_comm (degreesToRadians lon2) (degreesToRadians lon1),
    mul_comm (Real.cos (degreesToRadians lat1)) (Real.cos (degreesToRadians lat2))]

lemma rawHaversine_self (lat lon r : ℝ) : rawHaversine lat lon lat lon r = 0 := by
  simp only [rawHaversine]
  simp [hsin_zero, atan2_zero_one]

lemma DistanceBetweenPoints_symm (lat1 lon1 lat2 lon2 r : ℝ) :
    DistanceBetweenPoints lat1 lon1 lat2 lon2 r =
      DistanceBetweenPoints lat2 lon2 lat1 lon1 r := by
  unfold DistanceBetweenPoints
  rw [rawHaversine_symm]

lemma DistanceBetweenPoints_self (lat lon r : ℝ) :
    DistanceBetweenPoints lat lon lat lon r = 0 := by
  unfold DistanceBetweenPoints
  rw [rawHaversine_self]
  norm_num [goRound_zero]

lemma findWithin_mem (location : ZipCodeLocation) (maxR er : ℝ)
    (l : List (String × ZipCodeLocation)) (s : String) :
    s ∈ findWithin location maxR er l ↔
      ∃ p ∈ l, p.2.zipCode = s ∧ p.2.zipCode ≠ location.zipCode ∧
        DistanceBetweenPoints location.lat location.lon p.2.lat p.2.lon er < maxR := by
  induction l with
  | nil => simp [findWithin]
  | cons a rest ih =>
    obtain ⟨ak, elm⟩ := a
    simp only [findWithin]
    by_cases h1 : elm.zipCode ≠ location.zipCode
    · by_cases h2 : DistanceBetweenPoints (location.lat : ℝ) (location.lon : ℝ)
          (elm.lat : ℝ) (elm.lon : ℝ) er < maxR
      · simp only [if_pos h1, if_pos h2, List.mem_cons, ih]
        constructor
        · rintro (rfl | ⟨p, hp, hps, hpne, hpd⟩)
          · exact ⟨(ak, elm), Or.inl rfl, rfl, h1, h2⟩
          · exact ⟨p, Or.inr hp, hps, hpne, hpd⟩
        · rintro ⟨p, hp | hp, hps, hpne, hpd⟩
          · cases hp; exact Or.inl hps.symm
          · exact Or.inr ⟨p, hp, hps, hpne, hpd⟩
      · simp only [if_pos h1, if_neg h2, ih]
        constructor
        · rintro ⟨p, hp, hps, hpne, hpd⟩
          exact ⟨p, List.mem_cons_of_mem _ hp, hps, hpne, hpd⟩
        · rintro ⟨p, hp, hps, hpne, hpd⟩
          rcases List.mem_cons.mp hp with h | h
          · cases h; exact absurd hpd h2
          · exact ⟨p, h, hps, hpne, hpd⟩
    · simp only [if_neg h1, ih]
      push_neg at h1
      constructor
      · rintro ⟨p, hp, hps, hpne, hpd⟩
        exact ⟨p, List.mem_cons_of_mem _ hp, hps, hpne, hpd⟩
      · rintro ⟨p, hp, hps, hpne, hpd⟩
        rcases List.mem_cons.mp hp with h | h
        · cases h; exact absurd h1 hpne
        · exact ⟨p, h, hps, hpne, hpd⟩

lemma LoadDataset_eq (lines : List String) :
    LoadDataset (some lines) =
      (match loadLines lines [] with
       | .ok zipcodeMap => LoadResult.ok ⟨zipcodeMap⟩
       | .error e => LoadResult.err e) := rfl

lemma LoadDataset_ok (lines : List String) (zc : Zipcodes)
    (h : LoadDataset (some lines) = .ok zc) :
    loadLines lines [] = .ok zc.datasetList := by
  rw [LoadDataset_eq] at h
  cases hl : loadLines lines [] with
  | ok m =>
    rw [hl] at h
    injection h with h
    subst h
    rfl
  | error e => rw [hl] at h; cases h

lemma LoadDataset_err (lines : List String) (e : LoadError)
    (h : loadLines lines [] = .error e) :
    LoadDataset (some lines) = .err e := by
  rw [LoadDataset_eq, h]

lemma LoadDataset_of_loadLines (lines : List String) (m : DatasetList)
    (h : loadLines lines [] = .ok m) :
    LoadDataset (some lines) = .ok ⟨m⟩ := by
  rw [LoadDataset_eq, h]

/-! ## Claim theorems -/

/-- C3: the spec claims that for a non-existent or unreadable file the load
operation fails and control returns to the caller with a `FileAccessError`.
In the code, the file-open failure branch calls `log.Fatal(err)`, which
terminates the process, so the `return Zipcodes{}, fmt.Errorf(...)` after it
is dead code: the outcome is process exit, never a returned error (and the
fatal exit happens on no other path). -/
theorem C3_fileOpen_fatalExit :
    LoadDataset none = .fatalExit ∧
    (LoadDataset none).isErr = false ∧
    (LoadDataset none).isOk = false ∧
    ∀ lines : List String, (LoadDataset (some lines)).isFatalExit = false := by
  refine ⟨rfl, rfl, rfl, fun lines => ?_⟩
  rw [LoadDataset_eq]
  cases loadLines lines [] <;> rfl

/-- C5 counterexample: a file whose second line is malformed (1 field) but
whose first line carries an unparseable latitude fails with the latitude
error, not the malformed-line error, refuting "if any line does not split
into exactly 12 fields, load fails with MalformedLineError" as stated. -/
theorem C5_counterexample :
    LoadDataset (some ["A\tB\tC\tD\tE\tF\tG\tH\tI\tx\t0\tL", "short"]) =
      .err (.invalidLatitude "x") ∧
    (LoadError.invalidLatitude "x").isMalformedLine = false :=
  ⟨by decide, rfl⟩

/-- C5 (amended): any malformed (≠ 12 fields) line makes the whole load fail
with some error and no index; the error is the malformed-line error whenever
every line before the malformed one is well-formed (lines are processed in
order and the first offending line's error is returned); a file with zero
lines yields an empty valid index. -/
theorem C5_amended_malformed :
    (∀ lines : List String,
      (∃ l ∈ lines, (splitTab l).length ≠ 12) →
        ∃ e, LoadDataset (some lines) = .err e) ∧
    (∀ (pre : List String) (l : String) (post : List String),
      (∀ p ∈ pre, lineOk p = true) → (splitTab l).length ≠ 12 →
        LoadDataset (some (pre ++ l :: post)) = .err .malformedLine) ∧
    LoadDataset (some []) = .ok ⟨[]⟩ := by
  refine ⟨fun lines ⟨l, hl, hbad⟩ => ?_, fun pre l post hok hbad => ?_, rfl⟩
  · obtain ⟨e, he⟩ := loadLines_err lines []
      ⟨l, hl, by simp [lineOk, parseLine_badSplit l hbad]⟩
    exact ⟨e, LoadDataset_err lines e he⟩
  · exact LoadDataset_err _ _
      (loadLines_abort pre [] l post .malformedLine hok (parseLine_badSplit l hbad))

/-- C5 witness: with one well-formed line before it, the 1-field line
`"short"` aborts the load with the malformed-line error; the empty file
loads to the empty index. -/
theorem C5_witness :
    (∀ p ∈ ["DE\t99999\tBerlin\tBrandenburg\tBB\tx\tx\tx\tx\t1\t2\t4"],
      lineOk p = true) ∧
    (splitTab "short").length = 1 ∧
    LoadDataset (some (["DE\t99999\tBerlin\tBrandenburg\tBB\tx\tx\tx\tx\t1\t2\t4"] ++
      "short" :: [])) = .err .malformedLine :=
  ⟨by decide, by decide,
    C5_amended_malformed.2.1 ["DE\t99999\tBerlin\tBrandenburg\tBB\tx\tx\tx\tx\t1\t2\t4"]
      "short" [] (by decide) (by decide)⟩

/-- C10 counterexample: a file containing a blank line does not necessarily
fail with the 12-field malformed-line error — an earlier line's latitude
error wins; this refutes C10's "load fails with the 12-field malformed-line
error" as a statement about every file containing an empty line. -/
theorem C10_counterexample :
    LoadDataset (some ["A\tB\tC\tD\tE\tF\tG\tH\tI\tz\t0\tL", ""]) =
      .err (.invalidLatitude "z") ∧
    (LoadError.invalidLatitude "z").isMalformedLine = false :=
  ⟨by decide, rfl⟩

/-- C10 (amended): empty lines are not skipped: an empty line splits on tab
into one field, so a file containing one always fails to load; the error is
the 12-field malformed-line error whenever the lines before the empty line
are all well-formed (in general the first offending line's error wins). -/
theorem C10_amended_empty_line :
    (splitTab "").length = 1 ∧
    (∀ (pre post : List String), (∀ p ∈ pre, lineOk p = true) →
      LoadDataset (some (pre ++ "" :: post)) = .err .malformedLine) ∧
    (∀ lines : List String, "" ∈ lines → ∃ e, LoadDataset (some lines) = .err e) := by
  refine ⟨rfl, fun pre post hok => ?_, fun lines hmem => ?_⟩
  · exact LoadDataset_err _ _
      (loadLines_abort pre [] "" post .malformedLine hok
        (parseLine_badSplit "" (by decide)))
  · obtain ⟨e, he⟩ := loadLines_err lines [] ⟨"", hmem, by decide⟩
    exact ⟨e, LoadDataset_err lines e he⟩

/-- C10 witness: a well-formed line followed by an empty line loads to the
malformed-line error. -/
theorem C10_witness :
    (∀ p ∈ ["DE\t99999\tBerlin\tBrandenburg\tBB\tx\tx\tx\tx\t1\t2\t4"],
      lineOk p = true) ∧
    LoadDataset (some (["DE\t99999\tBerlin\tBrandenburg\tBB\tx\tx\tx\tx\t1\t2\t4"] ++
      "" :: [])) = .err .malformedLine :=
  ⟨by decide,
    C10_amended_empty_line.2.1 ["DE\t99999\tBerlin\tBrandenburg\tBB\tx\tx\tx\tx\t1\t2\t4"]
      [] (by decide)⟩

/-- C6: on a 12-field line, an unparseable latitude (field 9) yields the
invalid-latitude error carrying the raw field — regardless of field 10, so a
line with both coordinates bad reports the latitude error; with latitude
parseable, an unparseable longitude (field 10) yields the invalid-longitude
error carrying the raw field; and any line error aborts the entire load when
the preceding lines are well-formed. -/
theorem C6_coordinate_errors :
    (∀ line : String, (splitTab line).length = 12 →
      parseFloat ((splitTab line).getD 9 "") = none →
        parseLine line = .error (.invalidLatitude ((splitTab line).getD 9 ""))) ∧
    (∀ (line : String) (lat : ℚ), (splitTab line).length = 12 →
      parseFloat ((splitTab line).getD 9 "") = some lat →
      parseFloat ((splitTab line).getD 10 "") = none →
        parseLine line = .error (.invalidLongitude ((splitTab line).getD 10 ""))) ∧
    (∀ (pre : List String) (line : String) (post : List String) (e : LoadError),
      (∀ p ∈ pre, lineOk p = true) → parseLine line = .error e →
        LoadDataset (some (pre ++ line :: post)) = .err e) :=
  ⟨parseLine_badLat, parseLine_badLon,
    fun pre line post e hok hp =>
      LoadDataset_err _ _ (loadLines_abort pre [] line post e hok hp)⟩

/-- C6 witness: a line whose latitude and longitude fields are both
unparseable reports the latitude error, and the whole load aborts with it. -/
theorem C6_witness :
    (splitTab "A\tB\tC\tD\tE\tF\tG\tH\tI\tbadlat\tbadlon\tL").length = 12 ∧
    parseFloat ((splitTab "A\tB\tC\tD\tE\tF\tG\tH\tI\tbadlat\tbadlon\tL").getD 9 "") = none ∧
    parseLine "A\tB\tC\tD\tE\tF\tG\tH\tI\tbadlat\tbadlon\tL" =
      .error (.invalidLatitude
        ((splitTab "A\tB\tC\tD\tE\tF\tG\tH\tI\tbadlat\tbadlon\tL").getD 9 "")) ∧
    LoadDataset (some ([] ++ "A\tB\tC\tD\tE\tF\tG\tH\tI\tbadlat\tbadlon\tL" :: [])) =
      .err (.invalidLatitude "badlat") :=
  ⟨by decide, by decide,
    C6_coordinate_errors.1 "A\tB\tC\tD\tE\tF\tG\tH\tI\tbadlat\tbadlon\tL"
      (by decide) (by decide),
    C6_coordinate_errors.2.2 [] "A\tB\tC\tD\tE\tF\tG\tH\tI\tbadlat\tbadlon\tL" []
      (.invalidLatitude "badlat") (by decide) (by decide)⟩

/-- C9: when every line of the file is well-formed (in particular when two
or more lines carry the same zip-code field), the load succeeds with no
error, and the resulting index maps each key to the record built from the
last line whose zip-code field equals that key (last-write-wins). -/
theorem C9_last_write_wins (lines : List String)
    (h : ∀ l ∈ lines, lineOk l = true) :
    ∃ zc : Zipcodes, LoadDataset (some lines) = .ok zc ∧
      ∀ k : String, mapGet zc.datasetList k = lastParsed lines k := by
  obtain ⟨m, hm⟩ := loadLines_ok lines [] h
  refine ⟨⟨m⟩, LoadDataset_of_loadLines lines m hm, fun k => ?_⟩
  rw [loadLines_get lines [] m k hm]
  cases lastParsed lines k <;> simp [mapGet]

/-- C9 witness: two well-formed lines with the same zip-code field `11111`
load without error, and the key holds the record of the second line. -/
theorem C9_witness :
    (∀ l ∈ ["DE\t11111\tAstadt\tAland\tAA\tx\tx\tx\tx\t1\t1\t4",
            "DE\t11111\tBstadt\tBland\tBB\tx\tx\tx\tx\t2\t3\t4"], lineOk l = true) ∧
    (∃ zc : Zipcodes,
      LoadDataset (some ["DE\t11111\tAstadt\tAland\tAA\tx\tx\tx\tx\t1\t1\t4",
        "DE\t11111\tBstadt\tBland\tBB\tx\tx\tx\tx\t2\t3\t4"]) = .ok zc ∧
      ∀ k : String, mapGet zc.datasetList k =
        lastParsed ["DE\t11111\tAstadt\tAland\tAA\tx\tx\tx\tx\t1\t1\t4",
          "DE\t11111\tBstadt\tBland\tBB\tx\tx\tx\tx\t2\t3\t4"] k) ∧
    lastParsed ["DE\t11111\tAstadt\tAland\tAA\tx\tx\tx\tx\t1\t1\t4",
        "DE\t11111\tBstadt\tBland\tBB\tx\tx\tx\tx\t2\t3\t4"] "11111" =
      some ⟨"11111", "Bstadt", "Bland", 2, 3, "BB"⟩ :=
  ⟨by decide,
    C9_last_write_wins ["DE\t11111\tAstadt\tAland\tAA\tx\tx\tx\tx\t1\t1\t4",
      "DE\t11111\tBstadt\tBland\tBB\tx\tx\tx\tx\t2\t3\t4"] (by decide),
    by decide⟩

/-- C1 counterexample: `Lookup` does not fail exactly on absent keys.  A
well-formed line whose zip-code, place, admin and state fields are all empty
and whose coordinates parse to `0` loads to a stored record equal to the Go
zero value `ZipCodeLocation{}`; its key `""` is present in the index, yet
`Lookup ""` returns the not-found error. -/
theorem C1_counterexample :
    LoadDataset (some ["DE\t\t\t\t\t\t\t\t\t0\t0\t"]) = .ok ⟨[("", zeroLocation)]⟩ ∧
    mapGet [("", zeroLocation)] "" = some zeroLocation ∧
    (Zipcodes.mk [("", zeroLocation)]).Lookup "" =
      .error "zipcodes: zipcode  not found !" :=
  ⟨by decide, by decide, by decide⟩

/-- C1 (amended): `Lookup` fails with the not-found error exactly when the
key is absent from the index or its stored record equals the Go zero value
`ZipCodeLocation{}` (matching is byte-for-byte string equality on the map
key, with no normalization); on success it returns exactly the stored
record, which — for an index produced by a successful load — was built from
some line of the file: its `zipCode` field equals the query key and the line's
zip-code field, `placeName`/`adminName` equal the raw line fields, and
`lat`/`lon` equal the parsed values of fields 9 and 10. -/
theorem C1_amended_lookup :
    (∀ (zc : Zipcodes) (k : String),
      (∃ e, zc.Lookup k = .error e) ↔
        (mapGet zc.datasetList k = none ∨ mapGet zc.datasetList k = some zeroLocation)) ∧
    (∀ (zc : Zipcodes) (k : String) (loc : ZipCodeLocation),
      zc.Lookup k = .ok loc → mapGet zc.datasetList k = some loc) ∧
    (∀ (lines : List String) (zc : Zipcodes) (k : String) (loc : ZipCodeLocation),
      LoadDataset (some lines) = .ok zc → zc.Lookup k = .ok loc →
        loc.zipCode = k ∧
        ∃ line ∈ lines,
          (splitTab line).length = 12 ∧
          loc.zipCode = (splitTab line).getD 1 "" ∧
          loc.placeName = (splitTab line).getD 2 "" ∧
          loc.adminName = (splitTab line).getD 3 "" ∧
          loc.stateCode = (splitTab line).getD 4 "" ∧
          parseFloat ((splitTab line).getD 9 "") = some loc.lat ∧
          parseFloat ((splitTab line).getD 10 "") = some loc.lon) := by
  refine ⟨Lookup_error_iff, fun zc k loc h => (Lookup_ok_get zc k loc h).1,
    fun lines zc k loc hload hlook => ?_⟩
  have hget : mapGet zc.datasetList k = some loc := (Lookup_ok_get zc k loc hlook).1
  have hll := LoadDataset_ok lines zc hload
  have hmatch := loadLines_get lines [] zc.datasetList k hll
  rw [hget] at hmatch
  cases hlast : lastParsed lines k with
  | none => rw [hlast] at hmatch; simp [mapGet] at hmatch
  | some l =>
    rw [hlast] at hmatch
    simp at hmatch
    subst hmatch
    obtain ⟨line, hline, hp⟩ := lastParsed_mem lines k loc hlast
    obtain ⟨h12, hk, hzip, hplace, hadmin, hstate, hlat, hlon⟩ :=
      parseLine_ok_fields line k loc hp
    exact ⟨parseLine_ok_key line k loc hp,
      line, hline, h12, hzip, hplace, hadmin, hstate, hlat, hlon⟩

/-- C1 witness: a single well-formed line loads; looking up its key returns
the record whose fields are exactly the raw line fields and parsed
coordinates. -/
theorem C1_witness :
    LoadDataset (some ["DE\t99999\tBerlin\tBrandenburg\tBB\tx\tx\tx\tx\t1\t2\t4"]) =
      .ok ⟨[("99999", ⟨"99999", "Berlin", "Brandenburg", 1, 2, "BB"⟩)]⟩ ∧
    (Zipcodes.mk [("99999", ⟨"99999", "Berlin", "Brandenburg", 1, 2, "BB"⟩)]).Lookup
      "99999" = .ok ⟨"99999", "Berlin", "Brandenburg", 1, 2, "BB"⟩ ∧
    ((⟨"99999", "Berlin", "Brandenburg", 1, 2, "BB"⟩ : ZipCodeLocation).zipCode =
        "99999" ∧
      ∃ line ∈ ["DE\t99999\tBerlin\tBrandenburg\tBB\tx\tx\tx\tx\t1\t2\t4"],
        (splitTab line).length = 12 ∧
        (⟨"99999", "Berlin", "Brandenburg", 1, 2, "BB"⟩ : ZipCodeLocation).zipCode =
          (splitTab line).getD 1 "" ∧
        (⟨"99999", "Berlin", "Brandenburg", 1, 2, "BB"⟩ : ZipCodeLocation).placeName =
          (splitTab line).getD 2 "" ∧
        (⟨"99999", "Berlin", "Brandenburg", 1, 2, "BB"⟩ : ZipCodeLocation).adminName =
          (splitTab line).getD 3 "" ∧
        (⟨"99999", "Berlin", "Brandenburg", 1, 2, "BB"⟩ : ZipCodeLocation).stateCode =
          (splitTab line).getD 4 "" ∧
        parseFloat ((splitTab line).getD 9 "") =
          some (⟨"99999", "Berlin", "Brandenburg", 1, 2, "BB"⟩ : ZipCodeLocation).lat ∧
        parseFloat ((splitTab line).getD 10 "") =
          some (⟨"99999", "Berlin", "Brandenburg", 1, 2, "BB"⟩ : ZipCodeLocation).lon) :=
  ⟨by decide, by decide,
    C1_amended_lookup.2.2 ["DE\t99999\tBerlin\tBrandenburg\tBB\tx\tx\tx\tx\t1\t2\t4"]
      (Zipcodes.mk [("99999", ⟨"99999", "Berlin", "Brandenburg", 1, 2, "BB"⟩)])
      "99999" ⟨"99999", "Berlin", "Brandenburg", 1, 2, "BB"⟩ (by decide) (by decide)⟩

/-- C4: for a reference zip code whose lookup succeeds, the radius search
returns exactly the zip-code strings of the stored records whose rounded
distance to the reference point is strictly less than `maxRadius`, excluding
the reference by string equality of the zip-code field (so a different zip
code at identical coordinates is eligible, and the reference's own zip-code
string is never in the result, whatever the radius); the km/miles wrappers
return that list with the respective earth radius. -/
theorem C4_radius_search (zc : Zipcodes) (z : String) (loc : ZipCodeLocation)
    (h : zc.Lookup z = .ok loc) (maxRadius earthRadius : ℝ) :
    (∀ s : String,
      s ∈ zc.FindZipcodesWithinRadius loc maxRadius earthRadius ↔
        ∃ p ∈ zc.datasetList, p.2.zipCode = s ∧ p.2.zipCode ≠ loc.zipCode ∧
          DistanceBetweenPoints loc.lat loc.lon p.2.lat p.2.lon earthRadius
            < maxRadius) ∧
    loc.zipCode ∉ zc.FindZipcodesWithinRadius loc maxRadius earthRadius ∧
    zc.GetZipcodesWithinKmRadius z maxRadius =
      .ok (zc.FindZipcodesWithinRadius loc maxRadius earthRadiusKm) ∧
    zc.GetZipcodesWithinMlRadius z maxRadius =
      .ok (zc.FindZipcodesWithinRadius loc maxRadius earthRadiusMi) := by
  refine ⟨fun s => findWithin_mem loc maxRadius earthRadius zc.datasetList s, ?_, ?_, ?_⟩
  · intro hmem
    rw [Zipcodes.FindZipcodesWithinRadius, findWithin_mem] at hmem
    obtain ⟨p, -, hps, hpne, -⟩ := hmem
    exact hpne hps
  · unfold Zipcodes.GetZipcodesWithinKmRadius
    rw [h]
  · unfold Zipcodes.GetZipcodesWithinMlRadius
    rw [h]

/-- C4 witness: on a concrete two-entry index the reference lookup succeeds
and the km wrapper returns the scan result. -/
theorem C4_witness :
    (Zipcodes.mk [("00001", ⟨"00001", "P", "Q", 0, 0, "S"⟩),
        ("00002", ⟨"00002", "R", "T", 0, 1, "U"⟩)]).Lookup "00001" =
      .ok ⟨"00001", "P", "Q", 0, 0, "S"⟩ ∧
    (Zipcodes.mk [("00001", ⟨"00001", "P", "Q", 0, 0, "S"⟩),
        ("00002", ⟨"00002", "R", "T", 0, 1, "U"⟩)]).GetZipcodesWithinKmRadius
        "00001" 100 =
      .ok ((Zipcodes.mk [("00001", ⟨"00001", "P", "Q", 0, 0, "S"⟩),
        ("00002", ⟨"00002", "R", "T", 0, 1, "U"⟩)]).FindZipcodesWithinRadius
          ⟨"00001", "P", "Q", 0, 0, "S"⟩ 100 earthRadiusKm) :=
  ⟨by decide,
    (C4_radius_search
      (Zipcodes.mk [("00001", ⟨"00001", "P", "Q", 0, 0, "S"⟩),
        ("00002", ⟨"00002", "R", "T", 0, 1, "U"⟩)])
      "00001" ⟨"00001", "P", "Q", 0, 0, "S"⟩ (by decide) 100 6371).2.2.1⟩

/-- C7: for any two zip codes whose lookups both succeed, the pairwise
distance is symmetric in its arguments, for any radius constant and in
particular for the km and miles wrappers, because the haversine value is
symmetric under swapping the two points. -/
theorem C7_distance_symm (zc : Zipcodes) (a b : String) (la lb : ZipCodeLocation)
    (ha : zc.Lookup a = .ok la) (hb : zc.Lookup b = .ok lb) (radius : ℝ) :
    zc.CalculateDistance a b radius = zc.CalculateDistance b a radius ∧
    zc.DistanceInKm a b = zc.DistanceInKm b a ∧
    zc.DistanceInMiles a b = zc.DistanceInMiles b a := by
  have key : ∀ r : ℝ, zc.CalculateDistance a b r = zc.CalculateDistance b a r := by
    intro r
    unfold Zipcodes.CalculateDistance
    simp only [ha, hb]
    rw [DistanceBetweenPoints_symm]
  exact ⟨key radius, key earthRadiusKm, key earthRadiusMi⟩

/-- C7 witness: symmetry at a concrete two-entry index. -/
theorem C7_witness :
    (Zipcodes.mk [("00001", ⟨"00001", "P", "Q", 1, 2, "S"⟩),
        ("00002", ⟨"00002", "R", "T", 3, 4, "U"⟩)]).Lookup "00001" =
      .ok ⟨"00001", "P", "Q", 1, 2, "S"⟩ ∧
    (Zipcodes.mk [("00001", ⟨"00001", "P", "Q", 1, 2, "S"⟩),
        ("00002", ⟨"00002", "R", "T", 3, 4, "U"⟩)]).Lookup "00002" =
      .ok ⟨"00002", "R", "T", 3, 4, "U"⟩ ∧
    (Zipcodes.mk [("00001", ⟨"00001", "P", "Q", 1, 2, "S"⟩),
        ("00002", ⟨"00002", "R", "T", 3, 4, "U"⟩)]).DistanceInKm "00001" "00002" =
      (Zipcodes.mk [("00001", ⟨"00001", "P", "Q", 1, 2, "S"⟩),
        ("00002", ⟨"00002", "R", "T", 3, 4, "U"⟩)]).DistanceInKm "00002" "00001" :=
  ⟨by decide, by decide,
    (C7_distance_symm
      (Zipcodes.mk [("00001", ⟨"00001", "P", "Q", 1, 2, "S"⟩),
        ("00002", ⟨"00002", "R", "T", 3, 4, "U"⟩)])
      "00001" "00002" ⟨"00001", "P", "Q", 1, 2, "S"⟩ ⟨"00002", "R", "T", 3, 4, "U"⟩
      (by decide) (by decide) 1).2.1⟩

/-- C8: for any zip code whose lookup succeeds, the pairwise distance from
the zip code to itself is exactly 0, both in kilometers and in miles: the
haversine of two identical points is 0 and rounding preserves 0. -/
theorem C8_distance_self_zero (zc : Zipcodes) (a : String) (loc : ZipCodeLocation)
    (h : zc.Lookup a = .ok loc) :
    zc.DistanceInKm a a = .ok 0 ∧ zc.DistanceInMiles a a = .ok 0 := by
  have key : ∀ r : ℝ, zc.CalculateDistance a a r = .ok 0 := by
    intro r
    unfold Zipcodes.CalculateDistance
    simp only [h]
    rw [DistanceBetweenPoints_self]
  exact ⟨key earthRadiusKm, key earthRadiusMi⟩

/-- C8 witness: zero self-distance at a concrete index. -/
theorem C8_witness :
    (Zipcodes.mk [("00001", ⟨"00001", "P", "Q", 1, 2, "S"⟩)]).Lookup "00001" =
      .ok ⟨"00001", "P", "Q", 1, 2, "S"⟩ ∧
    (Zipcodes.mk [("00001", ⟨"00001", "P", "Q", 1, 2, "S"⟩)]).DistanceInKm
      "00001" "00001" = .ok 0 :=
  ⟨by decide,
    (C8_distance_self_zero (Zipcodes.mk [("00001", ⟨"00001", "P", "Q", 1, 2, "S"⟩)])
      "00001" ⟨"00001", "P", "Q", 1, 2, "S"⟩ (by decide)).1⟩

/-- C2 counterexample: the rounding the source performs (`math.Round`,
embedded as `goRound`) is not round-half-to-even: at the tie `1/2` it rounds
up to `1`, while round-half-to-even yields `0`. -/
theorem C2_counterexample :
    goRound (1/2 : ℝ) = 1 ∧ roundHalfToEven (1/2 : ℝ) = 0 :=
  ⟨goRound_half, roundHalfToEven_half⟩

/-- C2 (amended): every distance-returning operation (pairwise,
point-to-coordinate, and the comparison value of the radius search) returns
`c * R` rounded to 2 decimal places via `round(distance*100)/100`, where
`round` is Go's `math.Round`, i.e. round-half-AWAY-FROM-ZERO: at a tie
(fractional part exactly 1/2) the magnitude always rounds up. -/
theorem C2_amended_rounding :
    (∀ lat1 lon1 lat2 lon2 r : ℝ,
      DistanceBetweenPoints lat1 lon1 lat2 lon2 r =
        goRound (rawHaversine lat1 lon1 lat2 lon2 r * 100) / 100) ∧
    (∀ (zc : Zipcodes) (a b : String) (r v : ℝ),
      zc.CalculateDistance a b r = .ok v →
        ∃ la lb, zc.Lookup a = .ok la ∧ zc.Lookup b = .ok lb ∧
          v = DistanceBetweenPoints la.lat la.lon lb.lat lb.lon r) ∧
    (∀ (zc : Zipcodes) (z : String) (lat lon v : ℝ),
      zc.DistanceInKmToZipCode z lat lon = .ok v →
        ∃ loc, zc.Lookup z = .ok loc ∧
          v = DistanceBetweenPoints loc.lat loc.lon lat lon earthRadiusKm) ∧
    (∀ (zc : Zipcodes) (z : String) (lat lon v : ℝ),
      zc.DistanceInMilToZipCode z lat lon = .ok v →
        ∃ loc, zc.Lookup z = .ok loc ∧
          v = DistanceBetweenPoints loc.lat loc.lon lat lon earthRadiusMi) ∧
    (∀ (location : ZipCodeLocation) (maxR er : ℝ)
        (l : List (String × ZipCodeLocation)) (s : String),
      s ∈ findWithin location maxR er l →
        ∃ p ∈ l,
          DistanceBetweenPoints location.lat location.lon p.2.lat p.2.lon er < maxR) ∧
    (∀ x : ℝ, x - ⌊x⌋ = 1/2 → |goRound x| = |x| + 1/2) := by
  refine ⟨fun _ _ _ _ _ => rfl, ?_, ?_, ?_, ?_, goRound_tie⟩
  · intro zc a b r v h
    unfold Zipcodes.CalculateDistance at h
    cases ha : zc.Lookup a with
    | error e => rw [ha] at h; simp at h
    | ok la =>
      rw [ha] at h
      cases hb : zc.Lookup b with
      | error e => rw [hb] at h; simp at h
      | ok lb =>
        rw [hb] at h
        simp at h
        exact ⟨la, lb, rfl, rfl, h.symm⟩
  · intro zc z lat lon v h
    unfold Zipcodes.DistanceInKmToZipCode at h
    cases hz : zc.Lookup z with
    | error e => rw [hz] at h; simp at h
    | ok loc =>
      rw [hz] at h
      simp at h
      exact ⟨loc, rfl, h.symm⟩
  · intro zc z lat lon v h
    unfold Zipcodes.DistanceInMilToZipCode at h
    cases hz : zc.Lookup z with
    | error e => rw [hz] at h; simp at h
    | ok loc =>
      rw [hz] at h
      simp at h
      exact ⟨loc, rfl, h.symm⟩
  · intro location maxR er l s hmem
    rw [findWithin_mem] at hmem
    obtain ⟨p, hp, -, -, hd⟩ := hmem
    exact ⟨p, hp, hd⟩

/-- C2 witness: the tie-behaviour conjunct at the concrete tie `1/2`
(magnitude rounds up: `|goRound (1/2)| = 1`), and the pairwise-operation
conjunct at a concrete two-entry index. -/
theorem C2_witness :
    ((1/2 : ℝ) - ⌊(1/2 : ℝ)⌋ = 1/2) ∧
    |goRound (1/2 : ℝ)| = |(1/2 : ℝ)| + 1/2 ∧
    (Zipcodes.mk [("00001", ⟨"00001", "P", "Q", 1, 2, "S"⟩),
        ("00002", ⟨"00002", "R", "T", 3, 4, "U"⟩)]).CalculateDistance
        "00001" "00002" 6371 =
      .ok (DistanceBetweenPoints ((1 : ℚ) : ℝ) ((2 : ℚ) : ℝ) ((3 : ℚ) : ℝ)
        ((4 : ℚ) : ℝ) 6371) ∧
    ∃ la lb,
      (Zipcodes.mk [("00001", ⟨"00001", "P", "Q", 1, 2, "S"⟩),
          ("00002", ⟨"00002", "R", "T", 3, 4, "U"⟩)]).Lookup "00001" = .ok la ∧
      (Zipcodes.mk [("00001", ⟨"00001", "P", "Q", 1, 2, "S"⟩),
          ("00002", ⟨"00002", "R", "T", 3, 4, "U"⟩)]).Lookup "00002" = .ok lb ∧
      DistanceBetweenPoints ((1 : ℚ) : ℝ) ((2 : ℚ) : ℝ) ((3 : ℚ) : ℝ) ((4 : ℚ) : ℝ)
          6371 =
        DistanceBetweenPoints la.lat la.lon lb.lat lb.lon 6371 :=
  ⟨by rw [floor_half]; norm_num,
    C2_amended_rounding.2.2.2.2.2 (1/2) (by rw [floor_half]; norm_num),
    rfl,
    C2_amended_rounding.2.1
      (Zipcodes.mk [("00001", ⟨"00001", "P", "Q", 1, 2, "S"⟩),
        ("00002", ⟨"00002", "R", "T", 3, 4, "U"⟩)])
      "00001" "00002" 6371
      (DistanceBetweenPoints ((1 : ℚ) : ℝ) ((2 : ℚ) : ℝ) ((3 : ℚ) : ℝ) ((4 : ℚ) : ℝ)
        6371) rfl⟩
